import Mathlib

/-!
# Verification of the WAN-IP Stream Deck renderer

Shallow embedding of `src/actions/show-wan-ip.ts`: the SVG text-rendering
routines (`createStatusImage`, `createTextImage` and its three layout
variants) and the fetch-and-display driver step (`fetchAndDisplayIP`).

Modelling conventions:
* JavaScript numbers are modelled as exact rationals (`ℚ`).  Every numeric
  value the renderer interpolates into its markup has a finite decimal
  expansion, so exact arithmetic coincides with the source formulas.
* `ip.split(".")` (JavaScript `String.prototype.split` with the one-character
  separator `"."`) is modelled by `splitDots`, a structurally recursive
  splitter over the character list of the string with the same semantics
  (`"".split(".") = [""]`, a trailing separator yields a trailing `""`).
* JavaScript `string.length` counts UTF-16 code units; it is modelled as the
  codepoint count, which agrees on every string the plugin handles (all
  relevant inputs are ASCII).
* `Buffer.from(svg).toString("base64")` is modelled by `utf8Encode` (bytes as
  `ℕ`) followed by `base64Encode`; `base64Decode` is its verified inverse.
* The TypeScript field `displayLines : 1 | 2 | 4` is erased at runtime
  (settings arrive as JSON), so it is modelled as an arbitrary `ℕ`; the
  `switch` in `createTextImage` has a `default` arm that falls back to the
  single-line layout, exactly as in the source.
-/

/-- Stream Deck key size (144, `const KEY_SIZE = 144`). -/
def KEY_SIZE : ℚ := 144

/-- Helper for `splitDots`: walks the character list, cutting at every
`'.'`; `acc` holds the characters of the current segment in reverse. -/
def splitDotsAux : List Char → List Char → List (List Char)
  | [], acc => [acc.reverse]
  | c :: rest, acc =>
      if c = '.' then acc.reverse :: splitDotsAux rest []
      else splitDotsAux rest (c :: acc)

/-- JavaScript `s.split(".")`: split at every occurrence of `'.'`, keeping
empty segments (so `"Loading..."` splits into `["Loading", "", "", ""]`). -/
def splitDots (s : String) : List String :=
  (splitDotsAux s.data []).map String.mk

/-- One `<text>` element of the generated SVG: position, font size and
content.  The remaining attributes (`text-anchor="middle"`,
`dominant-baseline="central"`, `fill="white"`,
`font-family="Arial, sans-serif"`, `font-weight="bold"`) are identical
literals in all four templates of the source and live in
`textElemToString`. -/
structure TextElem where
  x : ℚ
  y : ℚ
  fontSize : ℚ
  content : String
deriving DecidableEq, Repr

/-- The generated SVG document: canvas size plus the list of text elements.
The full-canvas black `<rect>` is an identical literal in all four source
templates and lives in `svgToString`. -/
structure Svg where
  width : ℚ
  height : ℚ
  texts : List TextElem
deriving DecidableEq, Repr

/-- Decimal rendering of the interpolated numbers, as JavaScript prints
them.  Every number the renderer interpolates is an integer or has exactly
one decimal digit (denominator dividing 10), and is nonnegative. -/
def ratRepr (q : ℚ) : String :=
  if q.den = 1 then toString q.num
  else toString ((q * 10).num / 10) ++ "." ++ toString ((q * 10).num % 10)

/-- Serialisation of one `<text>` element, exactly as the source templates
interpolate it. -/
def textElemToString (t : TextElem) : String :=
  "<text x=\"" ++ ratRepr t.x ++ "\" y=\"" ++ ratRepr t.y ++
    "\" text-anchor=\"middle\" dominant-baseline=\"central\" fill=\"white\" font-family=\"Arial, sans-serif\" font-size=\"" ++
    ratRepr t.fontSize ++ "\" font-weight=\"bold\">" ++ t.content ++ "</text>"

/-- The `<svg …><rect …/>` opening of every generated document, with the
canvas size interpolated three times (width, height, viewBox) and the
full-canvas black background rectangle. -/
def svgOpen (w h : ℚ) : String :=
  "<svg xmlns=\"http://www.w3.org/2000/svg\" width=\"" ++ ratRepr w ++
    "\" height=\"" ++ ratRepr h ++ "\" viewBox=\"0 0 " ++ ratRepr w ++ " " ++
    ratRepr h ++ "\"><rect width=\"" ++ ratRepr w ++ "\" height=\"" ++
    ratRepr h ++ "\" fill=\"black\"/>"

/-- Serialisation of a whole SVG document. -/
def svgToString (s : Svg) : String :=
  svgOpen s.width s.height ++ String.join (s.texts.map textElemToString) ++ "</svg>"

/-- UTF-8 encoding of one character (bytes as natural numbers). -/
def utf8EncodeChar (c : Char) : List ℕ :=
  let n := c.toNat
  if n < 128 then [n]
  else if n < 2048 then [192 + n / 64, 128 + n % 64]
  else if n < 65536 then [224 + n / 4096, 128 + n / 64 % 64, 128 + n % 64]
  else [240 + n / 262144, 128 + n / 4096 % 64, 128 + n / 64 % 64, 128 + n % 64]

/-- UTF-8 encoding of a string (what `Buffer.from(svg)` produces). -/
def utf8Encode (s : String) : List ℕ :=
  (s.data.map utf8EncodeChar).flatten

/-- The base64 alphabet. -/
def b64Alphabet : List Char :=
  "ABCDEFGHIJKLMNOPQRSTUVWXYZabcdefghijklmnopqrstuvwxyz0123456789+/".data

/-- Character for a sextet value. -/
def b64Char (n : ℕ) : Char :=
  b64Alphabet.getD n 'A'

/-- Index of a character in the base64 alphabet. -/
def b64Index (c : Char) : Option ℕ :=
  b64Alphabet.findIdx? (· = c)

/-- Base64 encoding of a byte list, chunked three bytes at a time with
`'='` padding, as `Buffer.toString("base64")` produces. -/
def base64Chars : List ℕ → List Char
  | [] => []
  | [b0] => [b64Char (b0 / 4), b64Char (b0 % 4 * 16), '=', '=']
  | [b0, b1] => [b64Char (b0 / 4), b64Char (b0 % 4 * 16 + b1 / 16),
      b64Char (b1 % 16 * 4), '=']
  | b0 :: b1 :: b2 :: rest =>
      b64Char (b0 / 4) :: b64Char (b0 % 4 * 16 + b1 / 16) ::
        b64Char (b1 % 16 * 4 + b2 / 64) :: b64Char (b2 % 64) :: base64Chars rest

/-- Base64 encoding into a string. -/
def base64Encode (bs : List ℕ) : String :=
  String.mk (base64Chars bs)

/-- Base64 decoding of a character list (inverse of `base64Chars`). -/
def base64CharsDecode : List Char → Option (List ℕ)
  | [] => some []
  | c0 :: c1 :: c2 :: c3 :: rest =>
      if c2 = '=' ∧ c3 = '=' then
        match b64Index c0, b64Index c1 with
        | some s0, some s1 => if rest = [] then some [s0 * 4 + s1 / 16] else none
        | _, _ => none
      else if c3 = '=' then
        match b64Index c0, b64Index c1, b64Index c2 with
        | some s0, some s1, some s2 =>
            if rest = [] then some [s0 * 4 + s1 / 16, s1 % 16 * 16 + s2 / 4] else none
        | _, _, _ => none
      else
        match b64Index c0, b64Index c1, b64Index c2, b64Index c3,
            base64CharsDecode rest with
        | some s0, some s1, some s2, some s3, some bs =>
            some ((s0 * 4 + s1 / 16) :: (s1 % 16 * 16 + s2 / 4) :: (s2 % 4 * 64 + s3) :: bs)
        | _, _, _, _, _ => none
  | _ => none

/-- Base64 decoding of a string. -/
def base64Decode (s : String) : Option (List ℕ) :=
  base64CharsDecode s.data

/-- The data-URI scheme marker of every produced payload. -/
def dataUriHead : String := "data:image/svg+xml;base64,"

/-- Payload assembly: `data:image/svg+xml;base64,` followed by the base64 of the UTF-8 bytes
of the markup — the return expression of all four image builders. -/
def dataUri (svg : String) : String :=
  dataUriHead ++ base64Encode (utf8Encode svg)

/-- The SVG produced by `createStatusImage`: one centered line at fixed
font size 24. -/
def statusSvg (text : String) : Svg :=
  { width := KEY_SIZE, height := KEY_SIZE,
    texts := [{ x := KEY_SIZE / 2, y := KEY_SIZE / 2, fontSize := 24, content := text }] }

/-- Function `createStatusImage`: SVG for status messages (Copied!, Error, …),
always a single centered line. -/
def createStatusImage (text : String) : String :=
  dataUri (svgToString (statusSvg text))

/-- The font-size step function of `createSingleLineImage`. -/
def singleLineFontSize (len : ℕ) : ℚ :=
  if len ≤ 7 then 26
  else if len ≤ 11 then 22
  else if len ≤ 13 then 19
  else 17

/-- The SVG produced by `createSingleLineImage`: one centered line, font
size adjusted to the text length. -/
def singleLineSvg (text : String) : Svg :=
  { width := KEY_SIZE, height := KEY_SIZE,
    texts := [{ x := KEY_SIZE / 2, y := KEY_SIZE / 2,
                fontSize := singleLineFontSize text.length, content := text }] }

/-- Function `createSingleLineImage`: image with the IP on a single line. -/
def createSingleLineImage (text : String) : String :=
  dataUri (svgToString (singleLineSvg text))

/-- The SVG produced by `createTwoLineImage`: two lines `octets[0].octets[1]`
and `octets[2].octets[3]` at font size 28 (list access like `octets[i]`
in JavaScript, defaulting for out-of-range indices, which the length-4
guard in the caller rules out). -/
def twoLineSvg (octets : List String) : Svg :=
  let line1 := octets.getD 0 "" ++ "." ++ octets.getD 1 ""
  let line2 := octets.getD 2 "" ++ "." ++ octets.getD 3 ""
  let fontSize : ℚ := 28
  let lineHeight := fontSize * 1.3
  let totalHeight := lineHeight * 2
  let startY := (KEY_SIZE - totalHeight) / 2 + fontSize * 0.35
  { width := KEY_SIZE, height := KEY_SIZE,
    texts := [{ x := KEY_SIZE / 2, y := startY + lineHeight * 0.5,
                fontSize := fontSize, content := line1 },
              { x := KEY_SIZE / 2, y := startY + lineHeight * 1.5,
                fontSize := fontSize, content := line2 }] }

/-- Function `createTwoLineImage`: image with the IP on two lines. -/
def createTwoLineImage (octets : List String) : String :=
  dataUri (svgToString (twoLineSvg octets))

/-- The SVG produced by `createFourLineImage`: the `for (let i = 0; i < 4;
i++)` loop emitting one text element per octet at font size 30. -/
def fourLineSvg (octets : List String) : Svg :=
  let fontSize : ℚ := 30
  let lineHeight := fontSize * 1.1
  let totalHeight := lineHeight * 4
  let startY := (KEY_SIZE - totalHeight) / 2 + fontSize * 0.35
  { width := KEY_SIZE, height := KEY_SIZE,
    texts := (List.range 4).map fun (i : ℕ) =>
      { x := KEY_SIZE / 2, y := startY + lineHeight * ((i : ℚ) + 0.5),
        fontSize := fontSize, content := octets.getD i "" } }

/-- Function `createFourLineImage`: image with the IP on four lines. -/
def createFourLineImage (octets : List String) : String :=
  dataUri (svgToString (fourLineSvg octets))

/-- Function `createTextImage`: split the IP on `"."`; if the segment count is not
4, show a single line; otherwise dispatch on `displayLines` (the `switch`
with `case 4`, `case 2`, and `case 1`/`default` both giving single-line). -/
def createTextImage (displayLines : ℕ) (ip : String) : String :=
  let octets := splitDots ip
  if octets.length ≠ 4 then createSingleLineImage ip
  else
    match displayLines with
    | 4 => createFourLineImage octets
    | 2 => createTwoLineImage octets
    | _ => createSingleLineImage ip

/-- The driver state `fetchAndDisplayIP` reads and writes: the cached
`currentIP` and the `displayLines` setting. -/
structure DriverState where
  currentIP : String
  displayLines : ℕ
deriving DecidableEq, Repr

/-- Outcome of `fetch("https://api.ipify.org")` as the `try` block observes
it: either a 2xx response whose body is `text`, or a failure (a non-2xx
response makes the code throw, and a network error throws in `fetch`
itself; both land in the same `catch`). -/
inductive FetchResult where
  | ok (text : String)
  | failure
deriving DecidableEq, Repr

/-- Function `fetchAndDisplayIP`: on success store the response text in `currentIP`
and display `createTextImage(currentIP)`; on any failure store the sentinel
`"Error"` and display `createStatusImage("No Conn")`.  Returns the new
state and the image passed to `setImage`. -/
def fetchAndDisplayIP (st : DriverState) (res : FetchResult) : DriverState × String :=
  match res with
  | .ok text =>
      let st1 : DriverState := { st with currentIP := text }
      (st1, createTextImage st1.displayLines st1.currentIP)
  | .failure =>
      ({ st with currentIP := "Error" }, createStatusImage "No Conn")

/-- The shape asserted of every rendered payload: it is the data-URI
marker followed by base64 that decodes back to the UTF-8 bytes of the
serialised SVG; the SVG is the fixed 144×144 square; its markup opens with
the full-canvas black background rectangle; and every text element sits at
`x = KEY_SIZE / 2` and serialises with `x="72"`, `text-anchor="middle"`,
white fill, the bold generic sans-serif face. -/
def WellFormedPayload (payload : String) (svg : Svg) : Prop :=
  payload = dataUriHead ++ base64Encode (utf8Encode (svgToString svg)) ∧
  base64Decode (base64Encode (utf8Encode (svgToString svg)))
    = some (utf8Encode (svgToString svg)) ∧
  svg.width = 144 ∧ svg.height = 144 ∧
  (∃ rest, svgToString svg =
    "<svg xmlns=\"http://www.w3.org/2000/svg\" width=\"144\" height=\"144\" viewBox=\"0 0 144 144\"><rect width=\"144\" height=\"144\" fill=\"black\"/>"
      ++ rest) ∧
  ∀ t ∈ svg.texts, t.x = KEY_SIZE / 2 ∧
    textElemToString t =
      "<text x=\"" ++ "72" ++ "\" y=\"" ++ ratRepr t.y ++
        "\" text-anchor=\"middle\" dominant-baseline=\"central\" fill=\"white\" font-family=\"Arial, sans-serif\" font-size=\"" ++
        ratRepr t.fontSize ++ "\" font-weight=\"bold\">" ++ t.content ++ "</text>"

-- Sanity examples (claims are proved below).
example : splitDots "8.8.8.8" = ["8", "8", "8", "8"] := by decide
example : splitDots "Loading..." = ["Loading", "", "", ""] := by decide
example : splitDots "Error" = ["Error"] := by decide
example : splitDots "" = [""] := by decide

theorem b64Char_ne_pad : ∀ n, n < 64 → b64Char n ≠ '=' := by decide

theorem b64Index_b64Char : ∀ n, n < 64 → b64Index (b64Char n) = some n := by decide

/-- Base64 decoding inverts encoding on any list of bytes. -/
theorem base64CharsDecode_encode (bs : List ℕ) (h : ∀ b ∈ bs, b < 256) :
    base64CharsDecode (base64Chars bs) = some bs := by
  induction bs using base64Chars.induct with
  | case1 => rfl
  | case2 b0 =>
      have hb0 : b0 < 256 := h b0 (by simp)
      simp only [base64Chars, base64CharsDecode,
        b64Index_b64Char _ (show b0 / 4 < 64 by omega),
        b64Index_b64Char _ (show b0 % 4 * 16 < 64 by omega)]
      norm_num
      omega
  | case3 b0 b1 =>
      have hb0 : b0 < 256 := h b0 (by simp)
      have hb1 : b1 < 256 := h b1 (by simp)
      have hne : b64Char (b1 % 16 * 4) ≠ '=' := b64Char_ne_pad _ (by omega)
      simp only [base64Chars, base64CharsDecode,
        b64Index_b64Char _ (show b0 / 4 < 64 by omega),
        b64Index_b64Char _ (show b0 % 4 * 16 + b1 / 16 < 64 by omega),
        b64Index_b64Char _ (show b1 % 16 * 4 < 64 by omega), hne]
      norm_num
      constructor <;> omega
  | case4 b0 b1 b2 rest ih =>
      have hb0 : b0 < 256 := h b0 (by simp)
      have hb1 : b1 < 256 := h b1 (by simp)
      have hb2 : b2 < 256 := h b2 (by simp)
      have hrest : ∀ b ∈ rest, b < 256 := fun b hb => h b (by simp [hb])
      have hne2 : b64Char (b1 % 16 * 4 + b2 / 64) ≠ '=' := b64Char_ne_pad _ (by omega)
      have hne3 : b64Char (b2 % 64) ≠ '=' := b64Char_ne_pad _ (by omega)
      simp only [base64Chars, base64CharsDecode,
        b64Index_b64Char _ (show b0 / 4 < 64 by omega),
        b64Index_b64Char _ (show b0 % 4 * 16 + b1 / 16 < 64 by omega),
        b64Index_b64Char _ (show b1 % 16 * 4 + b2 / 64 < 64 by omega),
        b64Index_b64Char _ (show b2 % 64 < 64 by omega), hne2, hne3, ih hrest]
      norm_num
      refine ⟨by omega, by omega, by omega⟩

theorem base64Decode_encode (bs : List ℕ) (h : ∀ b ∈ bs, b < 256) :
    base64Decode (base64Encode bs) = some bs :=
  base64CharsDecode_encode bs h

theorem Char_toNat_lt (c : Char) : c.toNat < 1114112 := by
  rcases c.valid with h | ⟨h1, h2⟩ <;>
    simp only [Char.toNat, UInt32.toNat] at * <;> omega

theorem utf8EncodeChar_lt (c : Char) : ∀ b ∈ utf8EncodeChar c, b < 256 := by
  have hc := Char_toNat_lt c
  intro b hb
  simp only [utf8EncodeChar] at hb
  split at hb
  · simp at hb; omega
  · split at hb
    · simp at hb; rcases hb with rfl | rfl <;> omega
    · split at hb
      · simp at hb; rcases hb with rfl | rfl | rfl <;> omega
      · simp at hb; rcases hb with rfl | rfl | rfl | rfl <;> omega

theorem utf8Encode_lt (s : String) : ∀ b ∈ utf8Encode s, b < 256 := by
  intro b hb
  unfold utf8Encode at hb
  rw [List.mem_flatten] at hb
  obtain ⟨l, hl, hbl⟩ := hb
  rw [List.mem_map] at hl
  obtain ⟨c, _, rfl⟩ := hl
  exact utf8EncodeChar_lt c b hbl

/-- The opening of the generated markup, fully evaluated at the fixed
canvas size. -/
theorem svgOpen_at_key_size :
    svgOpen KEY_SIZE KEY_SIZE =
      "<svg xmlns=\"http://www.w3.org/2000/svg\" width=\"144\" height=\"144\" viewBox=\"0 0 144 144\"><rect width=\"144\" height=\"144\" fill=\"black\"/>" := by
  decide

/-- Any payload built by `dataUri` from an SVG whose canvas is the fixed
square and whose text elements are all horizontally centered satisfies
`WellFormedPayload`. -/
theorem wellFormedPayload_dataUri (svg : Svg)
    (hw : svg.width = KEY_SIZE) (hh : svg.height = KEY_SIZE)
    (hx : ∀ t ∈ svg.texts, t.x = KEY_SIZE / 2) :
    WellFormedPayload (dataUri (svgToString svg)) svg := by
  refine ⟨rfl, base64Decode_encode _ (utf8Encode_lt _), by rw [hw]; rfl, by rw [hh]; rfl,
    ⟨String.join (svg.texts.map textElemToString) ++ "</svg>", ?_⟩, ?_⟩
  · rw [show svgToString svg
        = svgOpen svg.width svg.height
            ++ String.join (svg.texts.map textElemToString) ++ "</svg>" from rfl,
      hw, hh, svgOpen_at_key_size, String.append_assoc]
  · intro t ht
    have hxt := hx t ht
    refine ⟨hxt, ?_⟩
    have h72 : ratRepr t.x = "72" := by
      rw [hxt, show KEY_SIZE / 2 = (72 : ℚ) by norm_num [KEY_SIZE]]
      decide
    simp only [textElemToString, h72]

/-- C1: the claim says malformed input — in particular the placeholder
`"Loading..."` — is never split across lines.  But `"Loading..."` splits on
`"."` into exactly 4 segments `["Loading", "", "", ""]`, so with
`displayLines = 2` the code takes the two-line path and renders the two
lines `"Loading."` and `"."` (and with 4, four lines), contradicting the
claim and the comment in the source itself, `// If not a valid IP format,
show as single line`. -/
theorem C1_loading_split_bug :
    (splitDots "Loading...").length = 4 ∧
    createTextImage 2 "Loading..." = createTwoLineImage ["Loading", "", "", ""] ∧
    (twoLineSvg (splitDots "Loading...")).texts.map TextElem.content = ["Loading.", "."] ∧
    createTextImage 4 "Loading..." = createFourLineImage ["Loading", "", "", ""] ∧
    (fourLineSvg (splitDots "Loading...")).texts.map TextElem.content
      = ["Loading", "", "", ""] := by
  have h : splitDots "Loading..." = ["Loading", "", "", ""] := by decide
  refine ⟨by decide, ?_, by decide, ?_, by decide⟩ <;> simp [createTextImage, h]

/-- Branch structure of `createTextImage`, with the `switch` flattened into
decidable tests on `displayLines`. -/
theorem createTextImage_eq (d : ℕ) (ip : String) :
    createTextImage d ip =
      if (splitDots ip).length ≠ 4 then createSingleLineImage ip
      else if d = 4 then createFourLineImage (splitDots ip)
      else if d = 2 then createTwoLineImage (splitDots ip)
      else createSingleLineImage ip := by
  unfold createTextImage
  by_cases h : (splitDots ip).length ≠ 4
  · simp [h]
  · rcases d with _ | _ | _ | _ | _ | n <;> simp [h]

/-- C2: for any address splitting into exactly 4 segments, display mode 2
yields exactly two text elements: `seg0.seg1` and `seg2.seg3`, at font size
28, line height `28 × 1.3`, start offset `(144 − 2·lineHeight)/2 +
28×0.35`, with the line centers at `startY + lineHeight×0.5` and `startY +
lineHeight×1.5`. -/
theorem C2_two_line_layout (s a b c d : String) (h : splitDots s = [a, b, c, d]) :
    createTextImage 2 s = createTwoLineImage [a, b, c, d] ∧
    (twoLineSvg [a, b, c, d]).texts =
      [{ x := KEY_SIZE / 2,
         y := (144 - 2 * (28 * 1.3)) / 2 + 28 * 0.35 + (28 * 1.3) * 0.5,
         fontSize := 28, content := a ++ "." ++ b },
       { x := KEY_SIZE / 2,
         y := (144 - 2 * (28 * 1.3)) / 2 + 28 * 0.35 + (28 * 1.3) * 1.5,
         fontSize := 28, content := c ++ "." ++ d }] := by
  constructor
  · simp [createTextImage, h]
  · simp only [twoLineSvg, KEY_SIZE, List.getD]
    norm_num

theorem C2_two_line_layout_witness :
    createTextImage 2 "8.8.8.8" = createTwoLineImage ["8", "8", "8", "8"] ∧
    (twoLineSvg ["8", "8", "8", "8"]).texts.map TextElem.content = ["8.8", "8.8"] :=
  ⟨(C2_two_line_layout "8.8.8.8" "8" "8" "8" "8" (by decide)).1, by decide⟩

/-- C3: for any address splitting into exactly 4 segments, display mode 4
yields exactly four text elements, one segment per line in the original
order, at font size 30, line height `30 × 1.1`, with line `i` centered at
`startY + lineHeight×(i + 0.5)`. -/
theorem C3_four_line_layout (s a b c d : String) (h : splitDots s = [a, b, c, d]) :
    createTextImage 4 s = createFourLineImage [a, b, c, d] ∧
    (fourLineSvg [a, b, c, d]).texts =
      [{ x := KEY_SIZE / 2,
         y := (144 - 4 * (30 * 1.1)) / 2 + 30 * 0.35 + (30 * 1.1) * ((0 : ℚ) + 0.5),
         fontSize := 30, content := a },
       { x := KEY_SIZE / 2,
         y := (144 - 4 * (30 * 1.1)) / 2 + 30 * 0.35 + (30 * 1.1) * ((1 : ℚ) + 0.5),
         fontSize := 30, content := b },
       { x := KEY_SIZE / 2,
         y := (144 - 4 * (30 * 1.1)) / 2 + 30 * 0.35 + (30 * 1.1) * ((2 : ℚ) + 0.5),
         fontSize := 30, content := c },
       { x := KEY_SIZE / 2,
         y := (144 - 4 * (30 * 1.1)) / 2 + 30 * 0.35 + (30 * 1.1) * ((3 : ℚ) + 0.5),
         fontSize := 30, content := d }] := by
  constructor
  · simp [createTextImage, h]
  · simp only [fourLineSvg, KEY_SIZE, List.range_succ, List.range_zero, List.map,
      List.nil_append, List.cons_append, List.getD]
    norm_num

theorem C3_four_line_layout_witness :
    createTextImage 4 "203.0.113.77" = createFourLineImage ["203", "0", "113", "77"] ∧
    (fourLineSvg ["203", "0", "113", "77"]).texts.map TextElem.content
      = ["203", "0", "113", "77"] :=
  ⟨(C3_four_line_layout "203.0.113.77" "203" "0" "113" "77" (by decide)).1, by decide⟩

/-- C4: for any string splitting into exactly 4 non-empty segments, mode 1
takes the single-line path, whose sole text element carries the verbatim
string at the font size given by the length step function `len≤7→26`,
`len≤11→22`, `len≤13→19`, else `17` (so lengths 7, 8, 11, 12, 14 give
26, 22, 22, 19, 17). -/
theorem C4_single_line_font_step (s : String) (h : (splitDots s).length = 4)
    (_hne : ∀ seg ∈ splitDots s, seg ≠ "") :
    createTextImage 1 s = createSingleLineImage s ∧
    (singleLineSvg s).texts =
      [{ x := KEY_SIZE / 2, y := KEY_SIZE / 2,
         fontSize := if s.length ≤ 7 then 26 else if s.length ≤ 11 then 22
           else if s.length ≤ 13 then 19 else 17,
         content := s }] ∧
    singleLineFontSize 7 = 26 ∧ singleLineFontSize 8 = 22 ∧
    singleLineFontSize 11 = 22 ∧ singleLineFontSize 12 = 19 ∧
    singleLineFontSize 14 = 17 := by
  refine ⟨?_, ?_, by decide, by decide, by decide, by decide, by decide⟩
  · simp [createTextImage, h]
  · simp [singleLineSvg, singleLineFontSize]

theorem C4_single_line_font_step_witness :
    createTextImage 1 "8.8.8.8" = createSingleLineImage "8.8.8.8" ∧
    (singleLineSvg "8.8.8.8").texts.map TextElem.fontSize = [26] ∧
    (singleLineSvg "8.8.8.8").texts.map TextElem.content = ["8.8.8.8"] :=
  ⟨(C4_single_line_font_step "8.8.8.8" (by decide) (by decide)).1, by decide, by decide⟩

/-- C5: `createTextImage` is total — every input string and every
`displayLines` value (the runtime value is an arbitrary number, not just
1/2/4) yields a data-URI payload — and every mode other than 2 and 4,
recognized (1) or not, falls back to the single-line layout. -/
theorem C5_total_fallback_single_line (ip : String) (d : ℕ) :
    (∃ markup : String,
      createTextImage d ip = dataUriHead ++ base64Encode (utf8Encode markup)) ∧
    (d ≠ 2 → d ≠ 4 → createTextImage d ip = createSingleLineImage ip) := by
  rw [createTextImage_eq]
  constructor
  · by_cases h : (splitDots ip).length ≠ 4
    · rw [if_pos h]; exact ⟨svgToString (singleLineSvg ip), rfl⟩
    · rw [if_neg h]
      by_cases h4 : d = 4
      · rw [if_pos h4]; exact ⟨svgToString (fourLineSvg (splitDots ip)), rfl⟩
      · rw [if_neg h4]
        by_cases h2 : d = 2
        · rw [if_pos h2]; exact ⟨svgToString (twoLineSvg (splitDots ip)), rfl⟩
        · rw [if_neg h2]; exact ⟨svgToString (singleLineSvg ip), rfl⟩
  · intro h2 h4
    by_cases h : (splitDots ip).length ≠ 4
    · rw [if_pos h]
    · rw [if_neg h, if_neg h4, if_neg h2]

theorem C5_total_fallback_single_line_witness :
    createTextImage 7 "8.8.8.8" = createSingleLineImage "8.8.8.8" ∧
    createTextImage 3 "Error" = createSingleLineImage "Error" :=
  ⟨(C5_total_fallback_single_line "8.8.8.8" 7).2 (by decide) (by decide),
   (C5_total_fallback_single_line "Error" 3).2 (by decide) (by decide)⟩

/-- C6: `createStatusImage` always produces exactly one text element,
horizontally centered (`x = KEY_SIZE / 2`), at the fixed font size 24,
regardless of the word. -/
theorem C6_status_always_single_line (w : String) :
    (statusSvg w).texts
      = [{ x := KEY_SIZE / 2, y := KEY_SIZE / 2, fontSize := 24, content := w }] ∧
    createStatusImage w = dataUri (svgToString (statusSvg w)) :=
  ⟨rfl, rfl⟩

/-- C8: the renderer is deterministic — two calls with identical inputs
(same address and display mode, same status word) return identical
payloads; the functions depend on nothing but their arguments. -/
theorem C8_renderer_deterministic (ip₁ ip₂ : String) (d₁ d₂ : ℕ) (w₁ w₂ : String)
    (hip : ip₁ = ip₂) (hd : d₁ = d₂) (hw : w₁ = w₂) :
    createTextImage d₁ ip₁ = createTextImage d₂ ip₂ ∧
    createStatusImage w₁ = createStatusImage w₂ := by
  subst hip; subst hd; subst hw; exact ⟨rfl, rfl⟩

theorem C8_renderer_deterministic_witness :
    createTextImage 2 "8.8.8.8" = createTextImage 2 "8.8.8.8" ∧
    createStatusImage "Copied!" = createStatusImage "Copied!" :=
  C8_renderer_deterministic "8.8.8.8" "8.8.8.8" 2 2 "Copied!" "Copied!" rfl rfl rfl

/-- Splitting the markup of a one-text-element SVG around the verbatim
content of that element. -/
theorem svgToString_singleton_split (w h : ℚ) (t : TextElem) :
    svgToString { width := w, height := h, texts := [t] } =
      (svgOpen w h ++ ("<text x=\"" ++ ratRepr t.x ++ "\" y=\"" ++ ratRepr t.y ++
        "\" text-anchor=\"middle\" dominant-baseline=\"central\" fill=\"white\" font-family=\"Arial, sans-serif\" font-size=\"" ++
        ratRepr t.fontSize ++ "\" font-weight=\"bold\">")) ++
      (t.content ++ ("</text>" ++ "</svg>")) := by
  simp only [svgToString, textElemToString, String.join, List.map, List.foldl,
    String.empty_append, String.append_assoc]

/-- C7: every payload either renderer produces — `createStatusImage` on any
word and `createTextImage` on any address and any mode — is the data-URI
scheme marker plus base64 that decodes back to the UTF-8 bytes of an SVG
document over the fixed 144×144 canvas, opening with the full-canvas black
rectangle, with every text element centered at `x = 72` with
`text-anchor="middle"`, white fill and bold sans-serif face. -/
theorem C7_payload_invariant (w : String) (d : ℕ) (ip : String) :
    (∃ svg : Svg, WellFormedPayload (createStatusImage w) svg) ∧
    (∃ svg : Svg, WellFormedPayload (createTextImage d ip) svg) := by
  constructor
  · exact ⟨statusSvg w, wellFormedPayload_dataUri _ rfl rfl (by simp [statusSvg])⟩
  · rw [createTextImage_eq]
    by_cases h : (splitDots ip).length ≠ 4
    · rw [if_pos h]
      exact ⟨singleLineSvg ip,
        wellFormedPayload_dataUri _ rfl rfl (by simp [singleLineSvg])⟩
    · rw [if_neg h]
      by_cases h4 : d = 4
      · rw [if_pos h4]
        exact ⟨fourLineSvg (splitDots ip),
          wellFormedPayload_dataUri _ rfl rfl (by simp [fourLineSvg])⟩
      · rw [if_neg h4]
        by_cases h2 : d = 2
        · rw [if_pos h2]
          exact ⟨twoLineSvg (splitDots ip),
            wellFormedPayload_dataUri _ rfl rfl (by simp [twoLineSvg])⟩
        · rw [if_neg h2]
          exact ⟨singleLineSvg ip,
            wellFormedPayload_dataUri _ rfl rfl (by simp [singleLineSvg])⟩

/-- C10: the renderer interpolates its input into the markup verbatim,
with no escaping: for every string, the serialised single-line and status
documents literally contain the input between fixed markup pieces (so
`<`, `>`, `&`, `"` in the input land unchanged in the document), and the
published payload is the data-URI marker plus base64 that decodes back to
exactly those bytes. -/
theorem C10_input_verbatim (s : String) :
    (∃ pre post, svgToString (singleLineSvg s) = pre ++ (s ++ post)) ∧
    (∃ pre post, svgToString (statusSvg s) = pre ++ (s ++ post)) ∧
    createTextImage 1 s
      = dataUriHead ++ base64Encode (utf8Encode (svgToString (singleLineSvg s))) ∧
    createStatusImage s
      = dataUriHead ++ base64Encode (utf8Encode (svgToString (statusSvg s))) ∧
    base64Decode (base64Encode (utf8Encode (svgToString (singleLineSvg s))))
      = some (utf8Encode (svgToString (singleLineSvg s))) ∧
    base64Decode (base64Encode (utf8Encode (svgToString (statusSvg s))))
      = some (utf8Encode (svgToString (statusSvg s))) := by
  refine ⟨⟨_, _, svgToString_singleton_split KEY_SIZE KEY_SIZE _⟩,
    ⟨_, _, svgToString_singleton_split KEY_SIZE KEY_SIZE _⟩, ?_, rfl,
    base64Decode_encode _ (utf8Encode_lt _), base64Decode_encode _ (utf8Encode_lt _)⟩
  rw [createTextImage_eq]
  norm_num
  rfl

/-- C9: on a fetch failure the driver sets `currentIP` to the sentinel
`"Error"` (leaving the display setting unchanged) and displays the status
image for `"No Conn"`; on a successful fetch it stores the response text
and displays the address image for it. -/
theorem C9_fetch_failure_sentinel (st : DriverState) (t : String) :
    (fetchAndDisplayIP st .failure).1.currentIP = "Error" ∧
    (fetchAndDisplayIP st .failure).1.displayLines = st.displayLines ∧
    (fetchAndDisplayIP st .failure).2 = createStatusImage "No Conn" ∧
    (fetchAndDisplayIP st (.ok t)).1.currentIP = t ∧
    (fetchAndDisplayIP st (.ok t)).2 = createTextImage st.displayLines t :=
  ⟨rfl, rfl, rfl, rfl, rfl⟩
